import Mathlib

/-!
Shallow embedding of the live transcript reconciliation engine of the
tuon-scribe plugin: the streaming transcription channel
(`AssemblyAiRealtimeClient`), the transcript reconciler and recording
controls of `LiveTranscribeService`, and the per-block session arbitration
of `startRecordingForBlock` in `main.ts`.  Callback invocations and other
observable effects are recorded in an output trace; state mutation is
explicit state passing.
-/

namespace TuonScribe

/-- Model of a JavaScript number as used by the configuration values:
either NaN, an infinity, or a finite rational. -/
inductive JsNum where
  | nan : JsNum
  | posInf : JsNum
  | negInf : JsNum
  | fin (q : ℚ) : JsNum
deriving DecidableEq

/-- `Number.isFinite`. -/
def JsNum.isFinite : JsNum → Bool
  | .fin _ => true
  | _ => false

/-- The JavaScript comparison `x > 0` (NaN compares false; `Infinity > 0`
is true). -/
def JsNum.gtZero : JsNum → Bool
  | .nan => false
  | .posInf => true
  | .negInf => false
  | .fin q => decide (0 < q)

/-- JavaScript `a || b` on strings: the empty string is falsy. -/
def jsOrS (a b : String) : String := if a = "" then b else a

/-- JavaScript `s.trim()`: drop leading and trailing whitespace
(modelled structurally on the character data). -/
def jsTrim (s : String) : String :=
  String.mk (((s.data.dropWhile Char.isWhitespace).reverse.dropWhile
    Char.isWhitespace).reverse)

/-- Does `hay` start with `pat` (character lists)? -/
def startsWithChars : List Char → List Char → Bool
  | [], _ => true
  | _ :: _, [] => false
  | p :: ps, h :: hs => p == h && startsWithChars ps hs

/-- Does `hay` contain `pat` as a contiguous run (character lists)? -/
def hasSubChars (pat : List Char) : List Char → Bool
  | [] => startsWithChars pat []
  | h :: hs => startsWithChars pat (h :: hs) || hasSubChars pat hs

/-- JavaScript `hay.includes(pat)`. -/
def jsIncludes (hay pat : String) : Bool := hasSubChars pat.toList hay.toList

/-- JavaScript `s.toLowerCase()` (modelled characterwise on the data). -/
def jsToLowerCase (s : String) : String := String.mk (s.data.map Char.toLower)

/-- Audio encoding accepted by the channel. -/
inductive Encoding where
  | pcm_s16le : Encoding
  | pcm_mulaw : Encoding
deriving DecidableEq

/-- WebSocket ready states. -/
inductive WsReady where
  | connecting : WsReady
  | openSt : WsReady
  | closing : WsReady
  | closed : WsReady
deriving DecidableEq

/-- `AssemblyAiTranscriptEvent` from `assemblyAiRealtimeClient.ts`. -/
inductive AaiEvent where
  | session_begin (session_id : Option String) : AaiEvent
  | transcript_update (text : String) (is_final : Bool)
      (end_of_turn : Option Bool) (formatted : Option Bool) : AaiEvent
  | session_terminated : AaiEvent
  | error (message : String) : AaiEvent
deriving DecidableEq

/-- Observable effects in chronological order: callback invocations,
notices, and audio sends to the channel socket. -/
inductive Out where
  | commit (text : String) : Out
  | interim (text : String) : Out
  | previewOut (text : String) : Out
  | statusOut (text : String) : Out
  | runningOut (running : Bool) : Out
  | noticeOut (text : String) : Out
  | chunkSent : Out
deriving DecidableEq

/-- Emit a single output when the corresponding callback is installed. -/
def emitIf (b : Bool) (o : Out) : List Out := if b then [o] else []

/-- Options the service passes to the `AssemblyAiRealtimeClient`
constructor. -/
structure ClientOpts where
  apiKey : String
  sampleRate : JsNum
  encoding : Encoding
  formatTurns : Bool
  endOfTurnConfidenceThreshold : JsNum
  minEndOfTurnSilenceMs : JsNum
  maxTurnSilenceMs : JsNum
  keytermsPrompt : Option (List String)
deriving DecidableEq

/-- The realtime client: its constructor options and the state of its
WebSocket (`none` models the `ws = null` field). -/
structure AaiClient where
  opts : ClientOpts
  ws : Option WsReady
deriving DecidableEq

/-- `sendPcm16Chunk`: the chunk is sent iff the socket exists and is
OPEN; otherwise it is silently dropped. -/
def AaiClient.sendPcm16Chunk (c : AaiClient) : List Out :=
  match c.ws with
  | some WsReady.openSt => [Out.chunkSent]
  | _ => []

/-- Configuration returned by `getAssemblyAiConfig`. -/
structure AaiConfig where
  sampleRate : JsNum
  chunkSizeSamples : JsNum
  encoding : Encoding
  formatTurns : Bool
  endOfTurnConfidenceThreshold : JsNum
  minEndOfTurnSilenceMs : JsNum
  maxTurnSilenceMs : JsNum
deriving DecidableEq

/-- Microphone capture configuration actually handed to
`startMicPcm16Capture`. -/
structure MicCfg where
  chunkSizeSamples : JsNum
  sampleRate : JsNum
deriving DecidableEq

/-- Which optional handlers a `start()` target supplies. -/
structure TargetCfg where
  hasInterim : Bool
  hasPreview : Bool
deriving DecidableEq

/-- State of `LiveTranscribeService`: the three reconciler strings, the
running flag, which callbacks are currently installed (a `false` flag
models a `null` handler / absent option), the realtime client and the
microphone handle. -/
structure LiveState where
  finalized : String
  current : String
  pendingUnformatted : String
  running : Bool
  hasFinal : Bool
  hasInterim : Bool
  hasPreview : Bool
  hasStatus : Bool
  hasRunningCb : Bool
  aai : Option AaiClient
  mic : Option MicCfg
  unsub : Bool
deriving DecidableEq

/-- `flushPendingUnformatted`: take `pendingUnformatted || current || ""`
trimmed; if empty do nothing, otherwise commit it, append it (plus a
space) to `finalized`, clear both working strings and clear the
in-progress display. -/
def flushPendingUnformatted (s : LiveState) : LiveState × List Out :=
  let fallback := jsTrim (jsOrS (jsOrS s.pendingUnformatted s.current) "")
  if fallback = "" then (s, [])
  else
    ({ s with finalized := s.finalized ++ fallback ++ " ",
              current := "", pendingUnformatted := "" },
     emitIf s.hasFinal (Out.commit fallback) ++ emitIf s.hasInterim (Out.interim ""))

/-- `terminate()` on the client: the socket is closed and nulled. -/
def AaiClient.terminate (c : AaiClient) : AaiClient := { c with ws := none }

/-- `cleanup`: unsubscribe, null all insert handlers (clearing the
in-progress displays first), terminate and drop the client, stop and drop
the microphone, and blank the status text. -/
def cleanup (s : LiveState) : LiveState × List Out :=
  ({ s with unsub := false, hasFinal := false, hasInterim := false,
            hasPreview := false, aai := none, mic := none },
   emitIf s.hasInterim (Out.interim "") ++ emitIf s.hasPreview (Out.previewOut "")
     ++ emitIf s.hasStatus (Out.statusOut ""))

/-- `stop()`: no-op unless running; otherwise flush the pending
unformatted tail, drop the running flag, report, and clean up. -/
def stop (s : LiveState) : LiveState × List Out :=
  if s.running = false then (s, [])
  else
    let fl := flushPendingUnformatted s
    let s1 := { fl.1 with running := false }
    let o2 := emitIf s.hasRunningCb (Out.runningOut false)
      ++ emitIf s.hasStatus (Out.statusOut "Stopping…")
    let cl := cleanup s1
    (cl.1, fl.2 ++ o2 ++ cl.2 ++ [Out.noticeOut "Live transcription stopped."])

/-- `handleAaiEvent`: the reconciler's event handler.  (There is no
branch for `session_begin`; it falls through with no effect.) -/
def handleAaiEvent (ev : AaiEvent) (s : LiveState) : LiveState × List Out :=
  match ev with
  | AaiEvent.session_begin _ => (s, [])
  | AaiEvent.transcript_update text is_final end_of_turn formatted =>
    let step :=
      if is_final then
        ({ s with finalized := s.finalized ++ jsTrim text ++ " ",
                  current := "", pendingUnformatted := "" },
         emitIf s.hasFinal (Out.commit text) ++ emitIf s.hasInterim (Out.interim ""))
      else
        ({ s with current := text,
                  pendingUnformatted :=
                    if end_of_turn = some true ∧ formatted = some false then text
                    else s.pendingUnformatted },
         emitIf s.hasInterim (Out.interim text))
    let preview := jsTrim (step.1.finalized ++ step.1.current)
    (step.1,
     step.2
       ++ emitIf s.hasStatus
            (Out.statusOut (if preview = "" then "Listening…" else preview))
       ++ emitIf s.hasPreview (Out.previewOut preview))
  | AaiEvent.session_terminated => flushPendingUnformatted s
  | AaiEvent.error message =>
    let o := emitIf s.hasStatus (Out.statusOut "Transcription error.")
      ++ [Out.noticeOut ("Transcription error: " ++ message)]
    if jsIncludes (jsToLowerCase message) "not authorized" then
      let st := stop s
      (st.1, o ++ st.2)
    else (s, o)

/-- Process a list of channel events in arrival order, concatenating the
output traces. -/
def processEvents : List AaiEvent → LiveState → LiveState × List Out
  | [], s => (s, [])
  | ev :: evs, s =>
    let p1 := handleAaiEvent ev s
    let p2 := processEvents evs p1.1
    (p2.1, p1.2 ++ p2.2)

/-- The microphone chunk callback installed by `start()`:
`this.aai?.sendPcm16Chunk(chunk)`. -/
def onPcm16Chunk (s : LiveState) : List Out :=
  match s.aai with
  | none => []
  | some c => c.sendPcm16Chunk

/-- Environment of one `start()` call: the credential and configuration
getters' results, the keyterms fetch outcome, the supplied target
handlers, and whether the channel connect and the microphone start
succeed. -/
structure StartEnv where
  apiKey : String
  config : AaiConfig
  keyterms : Option (List String)
  target : Option TargetCfg
  connectOk : Bool
  connectErrMsg : String
  micOk : Bool
  micErrMsg : String
deriving DecidableEq

/-- `start()`: guard on running and on a non-empty (trimmed) credential;
sanitize `sampleRate` and `chunkSizeSamples`; install handlers and reset
`finalized` and `current`; construct the client; connect; start the
microphone; report.  Connect failure tears down; microphone failure stops
the whole session. -/
def start (env : StartEnv) (s : LiveState) : LiveState × List Out :=
  if s.running then (s, [])
  else if jsTrim env.apiKey = "" then
    (s, [Out.noticeOut "Missing AssemblyAI API key. Set it in plugin settings."])
  else
    let sampleRate :=
      if env.config.sampleRate.isFinite && env.config.sampleRate.gtZero
      then env.config.sampleRate else JsNum.fin 16000
    let chunkSizeSamples :=
      if env.config.chunkSizeSamples.isFinite && env.config.chunkSizeSamples.gtZero
      then env.config.chunkSizeSamples else JsNum.fin 800
    let s1 := { s with
      hasFinal := true,
      hasInterim := (env.target.map TargetCfg.hasInterim).getD false,
      hasPreview := (env.target.map TargetCfg.hasPreview).getD false,
      finalized := "", current := "", running := true }
    let o1 := emitIf s.hasRunningCb (Out.runningOut true)
      ++ emitIf s.hasStatus (Out.statusOut "Starting transcription…")
    let client : AaiClient :=
      { opts := { apiKey := jsTrim env.apiKey, sampleRate := sampleRate,
                  encoding := env.config.encoding,
                  formatTurns := env.config.formatTurns,
                  endOfTurnConfidenceThreshold := env.config.endOfTurnConfidenceThreshold,
                  minEndOfTurnSilenceMs := env.config.minEndOfTurnSilenceMs,
                  maxTurnSilenceMs := env.config.maxTurnSilenceMs,
                  keytermsPrompt := env.keyterms },
        ws := none }
    let s2 := { s1 with aai := some client, unsub := true }
    if env.connectOk = false then
      let s3 := { s2 with running := false }
      let cl := cleanup s3
      (cl.1,
       o1 ++ emitIf s.hasStatus (Out.statusOut "Failed to connect.")
          ++ [Out.noticeOut ("AssemblyAI connect failed: " ++ env.connectErrMsg)]
          ++ cl.2)
    else
      let s3 := { s2 with aai := some { client with ws := some WsReady.openSt } }
      if env.micOk = false then
        let st := stop s3
        (st.1,
         o1 ++ [Out.noticeOut ("Microphone failed: " ++ env.micErrMsg)] ++ st.2)
      else
        let s4 := { s3 with
          mic := some { chunkSizeSamples := chunkSizeSamples, sampleRate := sampleRate } }
        (s4, o1 ++ emitIf s.hasStatus (Out.statusOut "Listening…")
            ++ [Out.noticeOut "Live transcription started."])

/-- A parsed inbound wire message, after `JSON.parse`: the field accesses
`msg?.type`, `msg?.transcript` (kept only when it is a string),
the truthiness of `msg?.end_of_turn` and `msg?.turn_is_formatted`, and
the `error` / `message` fields. -/
structure WireMsg where
  type : Option String
  transcript : Option String
  endOfTurnTruthy : Bool
  turnIsFormattedTruthy : Bool
  errorField : Option String
  messageField : Option String
deriving DecidableEq

/-- JavaScript `a || b` where each side is an optional string (absent and
empty are both falsy). -/
def jsOrOptS (a b : Option String) : Option String :=
  match a with
  | some sa => if sa = "" then b else some sa
  | none => b

/-- `handleMessageString` of the realtime client (after a successful
parse): maps a wire message to the events it emits. -/
def handleMessageString (formatTurns : Bool) (msg : WireMsg) : List AaiEvent :=
  if msg.type = some "Begin" then [AaiEvent.session_begin none]
  else if msg.type = some "Turn" then
    match msg.transcript with
    | some t =>
      if t ≠ "" then
        [AaiEvent.transcript_update t
          (msg.endOfTurnTruthy && (msg.turnIsFormattedTruthy || !formatTurns))
          (some msg.endOfTurnTruthy) (some msg.turnIsFormattedTruthy)]
      else []
    | none => []
  else if msg.type = some "Termination" then [AaiEvent.session_terminated]
  else
    match jsOrOptS msg.errorField msg.messageField with
    | some err => if jsTrim err ≠ "" then [AaiEvent.error (jsTrim err)] else []
    | none => []

/-- Plugin-level state relevant to session arbitration in `main.ts`. -/
structure PluginState where
  live : Option LiveState
  recordedRecording : Bool
  recordedTranscribing : Bool
  streamRecordingBlockId : Option String
deriving DecidableEq

/-- `startRecordingForBlock` (stream mode): reject when the recorded
transcriber is busy, or when the live service is running for a different
block or for the ad-hoc (null-owner) session; otherwise take ownership
and start the live service. -/
def startRecordingForBlock (env : StartEnv) (p : PluginState) (blockId : String) :
    PluginState × Bool × List Out :=
  match p.live with
  | none => (p, false, [])
  | some lv =>
    if p.recordedRecording || p.recordedTranscribing then
      (p, false, [Out.noticeOut "Recorded transcription is already running."])
    else
      let activeTruthy :=
        match p.streamRecordingBlockId with
        | some a => a ≠ ""
        | none => false
      let activeVal := p.streamRecordingBlockId.getD ""
      if lv.running && activeTruthy && activeVal != blockId then
        (p, false, [Out.noticeOut "Another scribe block is recording."])
      else if lv.running && !activeTruthy then
        (p, false, [Out.noticeOut "Live transcription is already running."])
      else
        let st := start env lv
        let sid := if st.1.running then some blockId else none
        let p1 : PluginState :=
          { p with live := some st.1, streamRecordingBlockId := sid }
        (p1, st.1.running, st.2)

/-- Commit-callback invocations of a trace, in order. -/
def commitsOf (l : List Out) : List String :=
  l.filterMap (fun o => match o with
    | Out.commit t => some t
    | _ => none)

/-- Interim (partial-text) callback invocations of a trace, in order. -/
def interimsOf (l : List Out) : List String :=
  l.filterMap (fun o => match o with
    | Out.interim t => some t
    | _ => none)

/-- Status-callback invocations of a trace, in order. -/
def statusOf (l : List Out) : List String :=
  l.filterMap (fun o => match o with
    | Out.statusOut t => some t
    | _ => none)

/-- Preview-callback invocations of a trace, in order. -/
def previewsOf (l : List Out) : List String :=
  l.filterMap (fun o => match o with
    | Out.previewOut t => some t
    | _ => none)

/-- Texts of the final updates of an event list, in order. -/
def finalTexts (evs : List AaiEvent) : List String :=
  evs.filterMap (fun ev => match ev with
    | AaiEvent.transcript_update t true _ _ => some t
    | _ => none)

/-- Is the event a transcript update? -/
def isUpdate : AaiEvent → Bool
  | AaiEvent.transcript_update _ _ _ _ => true
  | _ => false

/-! ### Trace projection lemmas -/

@[simp] theorem commitsOf_nil : commitsOf [] = [] := rfl

@[simp] theorem commitsOf_append (a b : List Out) :
    commitsOf (a ++ b) = commitsOf a ++ commitsOf b := by
  simp [commitsOf]

@[simp] theorem commitsOf_emitIf_commit (b : Bool) (t : String) :
    commitsOf (emitIf b (Out.commit t)) = if b then [t] else [] := by
  cases b <;> rfl

@[simp] theorem commitsOf_emitIf_interim (b : Bool) (t : String) :
    commitsOf (emitIf b (Out.interim t)) = [] := by
  cases b <;> rfl

@[simp] theorem commitsOf_emitIf_previewOut (b : Bool) (t : String) :
    commitsOf (emitIf b (Out.previewOut t)) = [] := by
  cases b <;> rfl

@[simp] theorem commitsOf_emitIf_statusOut (b : Bool) (t : String) :
    commitsOf (emitIf b (Out.statusOut t)) = [] := by
  cases b <;> rfl

@[simp] theorem commitsOf_emitIf_noticeOut (b : Bool) (t : String) :
    commitsOf (emitIf b (Out.noticeOut t)) = [] := by
  cases b <;> rfl

@[simp] theorem commitsOf_emitIf_runningOut (b r : Bool) :
    commitsOf (emitIf b (Out.runningOut r)) = [] := by
  cases b <;> rfl

@[simp] theorem commitsOf_noticeSingleton (t : String) :
    commitsOf [Out.noticeOut t] = [] := rfl

@[simp] theorem interimsOf_nil : interimsOf [] = [] := rfl

@[simp] theorem interimsOf_append (a b : List Out) :
    interimsOf (a ++ b) = interimsOf a ++ interimsOf b := by
  simp [interimsOf]

@[simp] theorem interimsOf_emitIf_commit (b : Bool) (t : String) :
    interimsOf (emitIf b (Out.commit t)) = [] := by
  cases b <;> rfl

@[simp] theorem interimsOf_emitIf_interim (b : Bool) (t : String) :
    interimsOf (emitIf b (Out.interim t)) = if b then [t] else [] := by
  cases b <;> rfl

@[simp] theorem interimsOf_emitIf_previewOut (b : Bool) (t : String) :
    interimsOf (emitIf b (Out.previewOut t)) = [] := by
  cases b <;> rfl

@[simp] theorem interimsOf_emitIf_statusOut (b : Bool) (t : String) :
    interimsOf (emitIf b (Out.statusOut t)) = [] := by
  cases b <;> rfl

@[simp] theorem interimsOf_emitIf_noticeOut (b : Bool) (t : String) :
    interimsOf (emitIf b (Out.noticeOut t)) = [] := by
  cases b <;> rfl

@[simp] theorem interimsOf_emitIf_runningOut (b r : Bool) :
    interimsOf (emitIf b (Out.runningOut r)) = [] := by
  cases b <;> rfl

@[simp] theorem interimsOf_noticeSingleton (t : String) :
    interimsOf [Out.noticeOut t] = [] := rfl

@[simp] theorem statusOf_nil : statusOf [] = [] := rfl

@[simp] theorem statusOf_append (a b : List Out) :
    statusOf (a ++ b) = statusOf a ++ statusOf b := by
  simp [statusOf]

@[simp] theorem statusOf_emitIf_commit (b : Bool) (t : String) :
    statusOf (emitIf b (Out.commit t)) = [] := by
  cases b <;> rfl

@[simp] theorem statusOf_emitIf_interim (b : Bool) (t : String) :
    statusOf (emitIf b (Out.interim t)) = [] := by
  cases b <;> rfl

@[simp] theorem statusOf_emitIf_previewOut (b : Bool) (t : String) :
    statusOf (emitIf b (Out.previewOut t)) = [] := by
  cases b <;> rfl

@[simp] theorem statusOf_emitIf_statusOut (b : Bool) (t : String) :
    statusOf (emitIf b (Out.statusOut t)) = if b then [t] else [] := by
  cases b <;> rfl

@[simp] theorem statusOf_emitIf_noticeOut (b : Bool) (t : String) :
    statusOf (emitIf b (Out.noticeOut t)) = [] := by
  cases b <;> rfl

@[simp] theorem statusOf_emitIf_runningOut (b r : Bool) :
    statusOf (emitIf b (Out.runningOut r)) = [] := by
  cases b <;> rfl

@[simp] theorem statusOf_noticeSingleton (t : String) :
    statusOf [Out.noticeOut t] = [] := rfl

@[simp] theorem previewsOf_nil : previewsOf [] = [] := rfl

@[simp] theorem previewsOf_append (a b : List Out) :
    previewsOf (a ++ b) = previewsOf a ++ previewsOf b := by
  simp [previewsOf]

@[simp] theorem previewsOf_emitIf_commit (b : Bool) (t : String) :
    previewsOf (emitIf b (Out.commit t)) = [] := by
  cases b <;> rfl

@[simp] theorem previewsOf_emitIf_interim (b : Bool) (t : String) :
    previewsOf (emitIf b (Out.interim t)) = [] := by
  cases b <;> rfl

@[simp] theorem previewsOf_emitIf_previewOut (b : Bool) (t : String) :
    previewsOf (emitIf b (Out.previewOut t)) = if b then [t] else [] := by
  cases b <;> rfl

@[simp] theorem previewsOf_emitIf_statusOut (b : Bool) (t : String) :
    previewsOf (emitIf b (Out.statusOut t)) = [] := by
  cases b <;> rfl

@[simp] theorem previewsOf_emitIf_noticeOut (b : Bool) (t : String) :
    previewsOf (emitIf b (Out.noticeOut t)) = [] := by
  cases b <;> rfl

@[simp] theorem previewsOf_emitIf_runningOut (b r : Bool) :
    previewsOf (emitIf b (Out.runningOut r)) = [] := by
  cases b <;> rfl

@[simp] theorem previewsOf_noticeSingleton (t : String) :
    previewsOf [Out.noticeOut t] = [] := rfl


/-! ### Step lemmas for the reconciler -/

theorem handleUpdate_state (t : String) (f : Bool) (eot fm : Option Bool) (s : LiveState) :
    (handleAaiEvent (AaiEvent.transcript_update t f eot fm) s).1 =
      if f then
        { s with finalized := s.finalized ++ jsTrim t ++ " ",
                 current := "", pendingUnformatted := "" }
      else
        { s with current := t,
                 pendingUnformatted :=
                   if eot = some true ∧ fm = some false then t
                   else s.pendingUnformatted } := by
  cases f <;> rfl

theorem handleUpdate_hasFinal (t : String) (f : Bool) (eot fm : Option Bool) (s : LiveState) :
    (handleAaiEvent (AaiEvent.transcript_update t f eot fm) s).1.hasFinal = s.hasFinal := by
  cases f <;> rfl

theorem handleUpdate_commits (t : String) (f : Bool) (eot fm : Option Bool) (s : LiveState) :
    commitsOf (handleAaiEvent (AaiEvent.transcript_update t f eot fm) s).2 =
      if f && s.hasFinal then [t] else [] := by
  cases f <;> cases h : s.hasFinal <;> simp [handleAaiEvent, h]

theorem handleUpdate_interims (t : String) (f : Bool) (eot fm : Option Bool) (s : LiveState)
    (h : s.hasInterim = true) :
    interimsOf (handleAaiEvent (AaiEvent.transcript_update t f eot fm) s).2 =
      if f then [""] else [t] := by
  cases f <;> simp [handleAaiEvent, h]

theorem flush_finalized_extends (s : LiveState) :
    ∃ t, (flushPendingUnformatted s).1.finalized = s.finalized ++ t := by
  unfold flushPendingUnformatted
  dsimp only
  split
  · exact ⟨"", (String.append_empty _).symm⟩
  · exact ⟨_, (String.append_assoc _ _ _)⟩

theorem flush_running (s : LiveState) :
    (flushPendingUnformatted s).1.running = s.running := by
  unfold flushPendingUnformatted; dsimp only; split <;> rfl

theorem flush_aai (s : LiveState) :
    (flushPendingUnformatted s).1.aai = s.aai := by
  unfold flushPendingUnformatted; dsimp only; split <;> rfl

theorem flush_commits_len (s : LiveState) :
    (commitsOf (flushPendingUnformatted s).2).length ≤ 1 := by
  unfold flushPendingUnformatted
  dsimp only
  split
  · simp
  · cases h : s.hasFinal <;> simp [h]

theorem stop_finalized_extends (s : LiveState) :
    ∃ t, (stop s).1.finalized = s.finalized ++ t := by
  unfold stop
  dsimp only
  split
  · exact ⟨"", (String.append_empty _).symm⟩
  · exact flush_finalized_extends s

theorem handle_finalized_extends (ev : AaiEvent) (s : LiveState) :
    ∃ t, (handleAaiEvent ev s).1.finalized = s.finalized ++ t := by
  cases ev with
  | session_begin sid => exact ⟨"", (String.append_empty _).symm⟩
  | transcript_update t f eot fm =>
    rw [handleUpdate_state]
    split
    · exact ⟨jsTrim t ++ " ", (String.append_assoc _ _ _)⟩
    · exact ⟨"", (String.append_empty _).symm⟩
  | session_terminated => exact flush_finalized_extends s
  | error m =>
    simp only [handleAaiEvent]
    split
    · exact stop_finalized_extends s
    · exact ⟨"", (String.append_empty _).symm⟩

theorem processEvents_finalized_extends (evs : List AaiEvent) (s : LiveState) :
    ∃ t, (processEvents evs s).1.finalized = s.finalized ++ t := by
  induction evs generalizing s with
  | nil => exact ⟨"", (String.append_empty _).symm⟩
  | cons ev evs ih =>
    obtain ⟨t1, h1⟩ := handle_finalized_extends ev s
    obtain ⟨t2, h2⟩ := ih (handleAaiEvent ev s).1
    refine ⟨t1 ++ t2, ?_⟩
    show (processEvents evs (handleAaiEvent ev s).1).1.finalized = _
    rw [h2, h1, String.append_assoc]

/-- C3: within a session, `finalizedText` only ever grows by appending:
after any single event, any flush invocation, and any event sequence, the
new `finalizedText` is the old one followed by some (possibly empty)
suffix — it is never rewritten, truncated, or shrunk. -/
theorem finalized_append_only :
    (∀ (ev : AaiEvent) (s : LiveState),
      ∃ t, (handleAaiEvent ev s).1.finalized = s.finalized ++ t)
    ∧ (∀ s : LiveState,
      ∃ t, (flushPendingUnformatted s).1.finalized = s.finalized ++ t)
    ∧ (∀ (evs : List AaiEvent) (s : LiveState),
      ∃ t, (processEvents evs s).1.finalized = s.finalized ++ t) :=
  ⟨handle_finalized_extends, flush_finalized_extends, processEvents_finalized_extends⟩


theorem flush_noop_of_trim_empty (s : LiveState)
    (h : jsTrim (jsOrS (jsOrS s.pendingUnformatted s.current) "") = "") :
    flushPendingUnformatted s = (s, []) := by
  unfold flushPendingUnformatted
  dsimp only
  rw [if_pos h]

theorem flush_result_cleared (s : LiveState)
    (h : ¬ jsTrim (jsOrS (jsOrS s.pendingUnformatted s.current) "") = "") :
    (flushPendingUnformatted s).1.pendingUnformatted = ""
      ∧ (flushPendingUnformatted s).1.current = "" := by
  unfold flushPendingUnformatted
  dsimp only
  rw [if_neg h]
  exact ⟨rfl, rfl⟩

theorem flush_flush (s : LiveState) :
    flushPendingUnformatted (flushPendingUnformatted s).1 =
      ((flushPendingUnformatted s).1, []) := by
  by_cases h : jsTrim (jsOrS (jsOrS s.pendingUnformatted s.current) "") = ""
  · rw [flush_noop_of_trim_empty s h]
    exact flush_noop_of_trim_empty s h
  · obtain ⟨hp, hc⟩ := flush_result_cleared s h
    apply flush_noop_of_trim_empty
    rw [hp, hc]
    rfl

theorem cleanup_commits (s : LiveState) : commitsOf (cleanup s).2 = [] := by
  simp [cleanup]

theorem stop_commits_of_cleared (s : LiveState)
    (h : flushPendingUnformatted s = (s, [])) :
    commitsOf (stop s).2 = [] := by
  unfold stop
  dsimp only
  split
  · rfl
  · rw [h]
    simp [cleanup]

/-- C4: the termination-flush procedure is idempotent: running
`flushPendingUnformatted` on the state it just produced changes nothing
and emits nothing; consequently a `SessionTerminated` flush followed by a
`stop()` (which flushes again) commits the pending tail at most once. -/
theorem flush_idempotent :
    (∀ s : LiveState,
      flushPendingUnformatted (flushPendingUnformatted s).1 =
        ((flushPendingUnformatted s).1, []))
    ∧ (∀ s : LiveState,
      (commitsOf ((handleAaiEvent AaiEvent.session_terminated s).2
          ++ (stop (handleAaiEvent AaiEvent.session_terminated s).1).2)).length ≤ 1) := by
  refine ⟨flush_flush, fun s => ?_⟩
  have hterm : handleAaiEvent AaiEvent.session_terminated s = flushPendingUnformatted s := rfl
  rw [hterm, commitsOf_append]
  have h2 : commitsOf (stop (flushPendingUnformatted s).1).2 = [] :=
    stop_commits_of_cleared _ (flush_flush s)
  rw [h2]
  simpa using flush_commits_len s


theorem commitsOf_processEvents_updates (evs : List AaiEvent) :
    ∀ s : LiveState, s.hasFinal = true →
      (∀ ev ∈ evs, isUpdate ev = true) →
      commitsOf (processEvents evs s).2 = finalTexts evs := by
  induction evs with
  | nil => intro s _ _; rfl
  | cons ev evs ih =>
    intro s hF hU
    cases ev with
    | transcript_update t f eot fm =>
      have hstep := handleUpdate_commits t f eot fm s
      have hpres := handleUpdate_hasFinal t f eot fm s
      have htail := ih (handleAaiEvent (AaiEvent.transcript_update t f eot fm) s).1
        (by rw [hpres]; exact hF)
        (fun e he => hU e (List.mem_cons_of_mem _ he))
      have hsplit : commitsOf (processEvents
          (AaiEvent.transcript_update t f eot fm :: evs) s).2
          = commitsOf (handleAaiEvent (AaiEvent.transcript_update t f eot fm) s).2
            ++ commitsOf (processEvents evs
                (handleAaiEvent (AaiEvent.transcript_update t f eot fm) s).1).2 := by
        show commitsOf (_ ++ _) = _
        rw [commitsOf_append]
      rw [hsplit, hstep, htail, hF]
      cases f <;> simp [finalTexts]
    | session_begin sid =>
      exact absurd (hU _ (List.mem_cons_self _ _)) (by simp [isUpdate])
    | session_terminated =>
      exact absurd (hU _ (List.mem_cons_self _ _)) (by simp [isUpdate])
    | error m =>
      exact absurd (hU _ (List.mem_cons_self _ _)) (by simp [isUpdate])

/-- C1: a final `Update` appends `jsTrim text ++ " "` to `finalizedText`,
clears `currentPartialText` and `pendingUnformattedText`, invokes the
commit callback exactly once with the raw untrimmed text, and invokes the
partial-preview callback with the empty string; and over any sequence of
`Update` events, the commit callback fires exactly once per final update,
in arrival order. -/
theorem finalUpdate_commit_exactly_once
    (s : LiveState) (text : String) (eot fm : Option Bool) (evs : List AaiEvent)
    (hF : s.hasFinal = true) (hI : s.hasInterim = true)
    (hU : ∀ ev ∈ evs, isUpdate ev = true) :
    ((handleAaiEvent (AaiEvent.transcript_update text true eot fm) s).1.finalized
        = s.finalized ++ jsTrim text ++ " "
      ∧ (handleAaiEvent (AaiEvent.transcript_update text true eot fm) s).1.current = ""
      ∧ (handleAaiEvent (AaiEvent.transcript_update text true eot fm) s).1.pendingUnformatted = ""
      ∧ commitsOf (handleAaiEvent (AaiEvent.transcript_update text true eot fm) s).2 = [text]
      ∧ interimsOf (handleAaiEvent (AaiEvent.transcript_update text true eot fm) s).2 = [""])
    ∧ commitsOf (processEvents evs s).2 = finalTexts evs := by
  refine ⟨⟨rfl, rfl, rfl, ?_, ?_⟩, commitsOf_processEvents_updates evs s hF hU⟩
  · rw [handleUpdate_commits, hF]
    rfl
  · rw [handleUpdate_interims _ _ _ _ _ hI]
    rfl

/-- Witness for C1 at a concrete state and event sequence. -/
def wState1 : LiveState :=
  { finalized := "a ", current := "x", pendingUnformatted := "", running := true,
    hasFinal := true, hasInterim := true, hasPreview := true, hasStatus := true,
    hasRunningCb := true, aai := none, mic := none, unsub := true }

theorem finalUpdate_commit_exactly_once_witness :
    ((handleAaiEvent (AaiEvent.transcript_update " b " true none none) wState1).1.finalized
        = wState1.finalized ++ jsTrim " b " ++ " "
      ∧ (handleAaiEvent (AaiEvent.transcript_update " b " true none none) wState1).1.current = ""
      ∧ (handleAaiEvent (AaiEvent.transcript_update " b " true none none) wState1).1.pendingUnformatted = ""
      ∧ commitsOf (handleAaiEvent (AaiEvent.transcript_update " b " true none none) wState1).2 = [" b "]
      ∧ interimsOf (handleAaiEvent (AaiEvent.transcript_update " b " true none none) wState1).2 = [""])
    ∧ commitsOf (processEvents
        [AaiEvent.transcript_update "u" false none none,
         AaiEvent.transcript_update "c" true none none,
         AaiEvent.transcript_update "v" false none none,
         AaiEvent.transcript_update "d" true none none] wState1).2
      = finalTexts
        [AaiEvent.transcript_update "u" false none none,
         AaiEvent.transcript_update "c" true none none,
         AaiEvent.transcript_update "v" false none none,
         AaiEvent.transcript_update "d" true none none] :=
  finalUpdate_commit_exactly_once wState1 " b " none none
    [AaiEvent.transcript_update "u" false none none,
     AaiEvent.transcript_update "c" true none none,
     AaiEvent.transcript_update "v" false none none,
     AaiEvent.transcript_update "d" true none none]
    (by decide) (by decide) (by decide)


theorem jsOrS_fallback (s : LiveState) :
    jsOrS (jsOrS s.pendingUnformatted s.current) ""
      = if s.pendingUnformatted = "" then s.current else s.pendingUnformatted := by
  by_cases hp : s.pendingUnformatted = ""
  · by_cases hc : s.current = "" <;> simp [jsOrS, hp, hc]
  · simp [jsOrS, hp]

/-- C2: a non-final update with `endOfTurn = true, formatted = false`
followed directly by `SessionTerminated` is committed by the flush: the
commit callback is invoked with the trimmed text and it is appended
(trimmed, plus a trailing space) to `finalizedText`; in general the flush
fallback is `pendingUnformattedText` when non-empty, else
`currentPartialText`. -/
theorem unformatted_tail_flushed_on_termination
    (s : LiveState) (t : String)
    (hF : s.hasFinal = true) (ht : jsTrim t ≠ "") :
    (commitsOf (processEvents
        [AaiEvent.transcript_update t false (some true) (some false),
         AaiEvent.session_terminated] s).2 = [jsTrim t]
      ∧ (processEvents
          [AaiEvent.transcript_update t false (some true) (some false),
           AaiEvent.session_terminated] s).1.finalized
        = s.finalized ++ jsTrim t ++ " ")
    ∧ ∀ s' : LiveState,
        jsOrS (jsOrS s'.pendingUnformatted s'.current) ""
          = if s'.pendingUnformatted = "" then s'.current else s'.pendingUnformatted := by
  refine ⟨?_, jsOrS_fallback⟩
  have htne : t ≠ "" := by
    intro h
    exact ht (by rw [h]; rfl)
  have hs1 : (handleAaiEvent (AaiEvent.transcript_update t false (some true) (some false)) s).1
      = { s with current := t, pendingUnformatted := t } := by
    rw [handleUpdate_state]
    simp
  have hfb : jsOrS (jsOrS t t) "" = t := by
    simp [jsOrS, htne]
  have hflush : flushPendingUnformatted { s with current := t, pendingUnformatted := t }
      = ({ s with finalized := s.finalized ++ jsTrim t ++ " ",
                  current := "", pendingUnformatted := "" },
         emitIf s.hasFinal (Out.commit (jsTrim t)) ++ emitIf s.hasInterim (Out.interim "")) := by
    unfold flushPendingUnformatted
    dsimp only
    rw [hfb, if_neg ht]
  constructor
  · show commitsOf
        ((handleAaiEvent (AaiEvent.transcript_update t false (some true) (some false)) s).2
          ++ ((flushPendingUnformatted
            (handleAaiEvent (AaiEvent.transcript_update t false (some true) (some false)) s).1).2
          ++ [])) = [jsTrim t]
    rw [hs1, hflush]
    have hc1 := handleUpdate_commits t false (some true) (some false) s
    simp at hc1
    simp [commitsOf_append, hc1, hF]
  · show (flushPendingUnformatted
        (handleAaiEvent (AaiEvent.transcript_update t false (some true) (some false)) s).1).1.finalized
      = s.finalized ++ jsTrim t ++ " "
    rw [hs1, hflush]

/-- Witness for C2 at a concrete state and text. -/
def wState2 : LiveState :=
  { finalized := "done ", current := "old", pendingUnformatted := "stale", running := true,
    hasFinal := true, hasInterim := false, hasPreview := false, hasStatus := true,
    hasRunningCb := true, aai := none, mic := none, unsub := true }

theorem unformatted_tail_flushed_on_termination_witness :
    (commitsOf (processEvents
        [AaiEvent.transcript_update " testing " false (some true) (some false),
         AaiEvent.session_terminated] wState2).2 = [jsTrim " testing "]
      ∧ (processEvents
          [AaiEvent.transcript_update " testing " false (some true) (some false),
           AaiEvent.session_terminated] wState2).1.finalized
        = wState2.finalized ++ jsTrim " testing " ++ " ")
    ∧ ∀ s' : LiveState,
        jsOrS (jsOrS s'.pendingUnformatted s'.current) ""
          = if s'.pendingUnformatted = "" then s'.current else s'.pendingUnformatted :=
  unformatted_tail_flushed_on_termination wState2 " testing " (by decide) (by decide)


/-- C5: a turn wire message with non-empty transcript text yields exactly
one `Update` whose `isFinal` is `endOfTurn AND (turnIsFormatted OR NOT
formatTurns)`; a turn message with empty or missing transcript yields no
event. -/
theorem turn_message_update_emission (formatTurns : Bool) (msg : WireMsg) (t : String)
    (hty : msg.type = some "Turn") :
    (msg.transcript = some t → t ≠ "" →
      handleMessageString formatTurns msg
        = [AaiEvent.transcript_update t
            (msg.endOfTurnTruthy && (msg.turnIsFormattedTruthy || !formatTurns))
            (some msg.endOfTurnTruthy) (some msg.turnIsFormattedTruthy)])
    ∧ ((msg.transcript = some "" ∨ msg.transcript = none) →
        handleMessageString formatTurns msg = []) := by
  have hnB : ¬ msg.type = some "Begin" := by rw [hty]; decide
  constructor
  · intro htr htne
    unfold handleMessageString
    rw [if_neg hnB, if_pos hty, htr]
    dsimp only
    rw [if_pos htne]
  · intro h
    unfold handleMessageString
    rw [if_neg hnB, if_pos hty]
    cases h with
    | inl he =>
      rw [he]
      dsimp only
      rw [if_neg (by decide)]
    | inr hn =>
      rw [hn]

/-- Witness for C5 at a concrete wire message. -/
def wMsg5 : WireMsg :=
  { type := some "Turn", transcript := some "hello there", endOfTurnTruthy := true,
    turnIsFormattedTruthy := false, errorField := none, messageField := none }

theorem turn_message_update_emission_witness :
    handleMessageString true wMsg5
      = [AaiEvent.transcript_update "hello there"
          (wMsg5.endOfTurnTruthy && (wMsg5.turnIsFormattedTruthy || !true))
          (some wMsg5.endOfTurnTruthy) (some wMsg5.turnIsFormattedTruthy)] :=
  (turn_message_update_emission true wMsg5 "hello there" (by decide)).1
    (by decide) (by decide)

theorem handle_aai_preserved_none (ev : AaiEvent) (s : LiveState)
    (h : s.aai = none) : (handleAaiEvent ev s).1.aai = none := by
  cases ev with
  | session_begin sid => exact h
  | transcript_update t f eot fm =>
    rw [handleUpdate_state]
    split <;> exact h
  | session_terminated => exact (flush_aai s).trans h
  | error m =>
    simp only [handleAaiEvent]
    split
    · show (stop s).1.aai = none
      unfold stop
      dsimp only
      split
      · exact h
      · rfl
    · exact h

theorem processEvents_aai_none (evs : List AaiEvent) :
    ∀ s : LiveState, s.aai = none → (processEvents evs s).1.aai = none := by
  induction evs with
  | nil => intro s h; exact h
  | cons ev evs ih =>
    intro s h
    exact ih _ (handle_aai_preserved_none ev s h)

theorem stop_running_false (s : LiveState) : (stop s).1.running = false := by
  unfold stop
  dsimp only
  split
  · assumption
  · rfl

theorem stop_aai_none (s : LiveState) (h : s.running = true) :
    (stop s).1.aai = none := by
  unfold stop
  dsimp only
  split
  · simp_all
  · rfl

/-- C8: an `Error` whose message contains "not authorized"
(case-insensitively), handled while running, performs a full stop: the
running flag drops, the channel is torn down, and no microphone chunk
delivered afterwards (through any further event sequence) is ever sent;
an `Error` without that substring leaves the state untouched. -/
theorem auth_error_stops_session (s : LiveState) (msg : String) :
    (s.running = true →
      jsIncludes (jsToLowerCase msg) "not authorized" = true →
      ((handleAaiEvent (AaiEvent.error msg) s).1.running = false
        ∧ (handleAaiEvent (AaiEvent.error msg) s).1.aai = none
        ∧ ∀ evs : List AaiEvent,
            onPcm16Chunk (processEvents evs (handleAaiEvent (AaiEvent.error msg) s).1).1 = []))
    ∧ (jsIncludes (jsToLowerCase msg) "not authorized" = false →
        (handleAaiEvent (AaiEvent.error msg) s).1 = s) := by
  constructor
  · intro hrun hincl
    have hstate : (handleAaiEvent (AaiEvent.error msg) s).1 = (stop s).1 := by
      simp only [handleAaiEvent]
      rw [if_pos hincl]
    have haai : (handleAaiEvent (AaiEvent.error msg) s).1.aai = none := by
      rw [hstate]; exact stop_aai_none s hrun
    refine ⟨by rw [hstate]; exact stop_running_false s, haai, fun evs => ?_⟩
    have := processEvents_aai_none evs _ haai
    simp [onPcm16Chunk, this]
  · intro hincl
    simp only [handleAaiEvent]
    rw [if_neg (by simp [hincl])]

/-- Witness for C8 at a concrete running state and error messages. -/
def wState8 : LiveState :=
  { finalized := "", current := "", pendingUnformatted := "", running := true,
    hasFinal := true, hasInterim := true, hasPreview := true, hasStatus := true,
    hasRunningCb := true,
    aai := some { opts := { apiKey := "k", sampleRate := JsNum.fin 16000,
                            encoding := Encoding.pcm_s16le, formatTurns := true,
                            endOfTurnConfidenceThreshold := JsNum.fin 1,
                            minEndOfTurnSilenceMs := JsNum.fin 160,
                            maxTurnSilenceMs := JsNum.fin 2400,
                            keytermsPrompt := none },
                  ws := some WsReady.openSt },
    mic := some { chunkSizeSamples := JsNum.fin 800, sampleRate := JsNum.fin 16000 },
    unsub := true }

theorem auth_error_stops_session_witness :
    ((handleAaiEvent (AaiEvent.error "Not Authorized: token expired") wState8).1.running = false
      ∧ (handleAaiEvent (AaiEvent.error "Not Authorized: token expired") wState8).1.aai = none
      ∧ onPcm16Chunk (processEvents [AaiEvent.session_terminated]
          (handleAaiEvent (AaiEvent.error "Not Authorized: token expired") wState8).1).1 = [])
    ∧ (handleAaiEvent (AaiEvent.error "connection reset") wState8).1 = wState8 := by
  have h1 := (auth_error_stops_session wState8 "Not Authorized: token expired").1
    (by decide) (by decide)
  have h2 := (auth_error_stops_session wState8 "connection reset").2 (by decide)
  exact ⟨⟨h1.1, h1.2.1, h1.2.2 [AaiEvent.session_terminated]⟩, h2⟩


/-- State used for the C7 counterexample: a running session with all
callbacks installed and nothing transcribed yet. -/
def wState7 : LiveState :=
  { finalized := "", current := "", pendingUnformatted := "", running := true,
    hasFinal := true, hasInterim := false, hasPreview := true, hasStatus := true,
    hasRunningCb := true, aai := none, mic := none, unsub := true }

/-- C7 counterexample: on a whitespace-only non-final update the computed
preview is empty, yet the status callback receives the "Listening…"
placeholder — substituted by the reconciler itself — rather than the
empty computed preview the claim promises. -/
theorem status_placeholder_counterexample :
    jsTrim ((handleAaiEvent (AaiEvent.transcript_update " " false none none) wState7).1.finalized
        ++ (handleAaiEvent (AaiEvent.transcript_update " " false none none) wState7).1.current) = ""
    ∧ statusOf (handleAaiEvent (AaiEvent.transcript_update " " false none none) wState7).2
        ≠ [jsTrim ((handleAaiEvent (AaiEvent.transcript_update " " false none none) wState7).1.finalized
            ++ (handleAaiEvent (AaiEvent.transcript_update " " false none none) wState7).1.current)]
    ∧ statusOf (handleAaiEvent (AaiEvent.transcript_update " " false none none) wState7).2
        = ["Listening…"] := by
  decide

/-- C7 (amended): after every `Update`, the preview callback receives
exactly `jsTrim (finalizedText ++ currentPartialText)` (computed on the
post-update state); the status callback receives that string when it is
non-empty, and the "Listening…" placeholder — substituted by the
reconciler, not the caller — when it is empty. -/
theorem update_preview_delivery (s : LiveState) (t : String) (f : Bool)
    (eot fm : Option Bool) :
    (s.hasPreview = true →
      previewsOf (handleAaiEvent (AaiEvent.transcript_update t f eot fm) s).2
        = [jsTrim ((handleAaiEvent (AaiEvent.transcript_update t f eot fm) s).1.finalized
            ++ (handleAaiEvent (AaiEvent.transcript_update t f eot fm) s).1.current)])
    ∧ (s.hasStatus = true →
      statusOf (handleAaiEvent (AaiEvent.transcript_update t f eot fm) s).2
        = [if jsTrim ((handleAaiEvent (AaiEvent.transcript_update t f eot fm) s).1.finalized
              ++ (handleAaiEvent (AaiEvent.transcript_update t f eot fm) s).1.current) = ""
           then "Listening…"
           else jsTrim ((handleAaiEvent (AaiEvent.transcript_update t f eot fm) s).1.finalized
              ++ (handleAaiEvent (AaiEvent.transcript_update t f eot fm) s).1.current)]) := by
  constructor
  · intro hP
    cases f <;> simp [handleAaiEvent, hP]
  · intro hS
    cases f <;> simp [handleAaiEvent, hS]

/-- Witness for the amended C7 on a concrete state and update. -/
theorem update_preview_delivery_witness :
    previewsOf (handleAaiEvent (AaiEvent.transcript_update "hi" false none none) wState7).2
      = [jsTrim ((handleAaiEvent (AaiEvent.transcript_update "hi" false none none) wState7).1.finalized
          ++ (handleAaiEvent (AaiEvent.transcript_update "hi" false none none) wState7).1.current)]
    ∧ statusOf (handleAaiEvent (AaiEvent.transcript_update "hi" false none none) wState7).2
      = [if jsTrim ((handleAaiEvent (AaiEvent.transcript_update "hi" false none none) wState7).1.finalized
            ++ (handleAaiEvent (AaiEvent.transcript_update "hi" false none none) wState7).1.current) = ""
         then "Listening…"
         else jsTrim ((handleAaiEvent (AaiEvent.transcript_update "hi" false none none) wState7).1.finalized
            ++ (handleAaiEvent (AaiEvent.transcript_update "hi" false none none) wState7).1.current)] :=
  ⟨(update_preview_delivery wState7 "hi" false none none).1 (by decide),
   (update_preview_delivery wState7 "hi" false none none).2 (by decide)⟩

/-- Environment used for the C6 theorems: valid key, both async steps
succeed. -/
def wEnv6 : StartEnv :=
  { apiKey := "key",
    config := { sampleRate := JsNum.fin 16000, chunkSizeSamples := JsNum.fin 800,
                encoding := Encoding.pcm_s16le, formatTurns := true,
                endOfTurnConfidenceThreshold := JsNum.fin 1,
                minEndOfTurnSilenceMs := JsNum.fin 160,
                maxTurnSilenceMs := JsNum.fin 2400 },
    keyterms := none, target := some { hasInterim := true, hasPreview := true },
    connectOk := true, connectErrMsg := "", micOk := true, micErrMsg := "" }

/-- Idle state with a leftover unformatted tail, for the C6 theorems. -/
def wState6 : LiveState :=
  { finalized := "old ", current := "cur", pendingUnformatted := "leftover",
    running := false, hasFinal := false, hasInterim := false, hasPreview := false,
    hasStatus := true, hasRunningCb := true, aai := none, mic := none, unsub := false }

/-- C6 counterexample: a `start()` that proceeds past both guards leaves
`pendingUnformattedText` untouched — only `finalizedText` and
`currentPartialText` are reset to the empty string. -/
theorem start_reset_counterexample :
    wState6.running = false
    ∧ jsTrim wEnv6.apiKey ≠ ""
    ∧ (start wEnv6 wState6).1.running = true
    ∧ (start wEnv6 wState6).1.finalized = ""
    ∧ (start wEnv6 wState6).1.current = ""
    ∧ (start wEnv6 wState6).1.pendingUnformatted = "leftover"
    ∧ (start wEnv6 wState6).1.pendingUnformatted ≠ "" := by
  decide

/-- C6 (amended): a `start()` that proceeds past its guards (and whose
connect and microphone steps succeed) resets `finalizedText` and
`currentPartialText` to the empty string, but leaves
`pendingUnformattedText` exactly as it was. -/
theorem start_resets_finalized_and_current (env : StartEnv) (s : LiveState)
    (h1 : s.running = false) (h2 : jsTrim env.apiKey ≠ "")
    (h3 : env.connectOk = true) (h4 : env.micOk = true) :
    (start env s).1.finalized = ""
    ∧ (start env s).1.current = ""
    ∧ (start env s).1.pendingUnformatted = s.pendingUnformatted := by
  simp [start, h1, h2, h3, h4]

/-- Witness for the amended C6. -/
theorem start_resets_finalized_and_current_witness :
    (start wEnv6 wState6).1.finalized = ""
    ∧ (start wEnv6 wState6).1.current = ""
    ∧ (start wEnv6 wState6).1.pendingUnformatted = wState6.pendingUnformatted :=
  start_resets_finalized_and_current wEnv6 wState6 (by decide) (by decide)
    (by decide) (by decide)


/-- C9: attempting to start for block `blockId` while the live service is
running for a different owner (another block, or the ad-hoc null owner)
is rejected: the plugin state — including every field of the live
session — is returned unchanged, the call reports failure, and a busy
notice is shown. -/
theorem busy_start_rejected (env : StartEnv) (p : PluginState) (blockId : String)
    (lv : LiveState)
    (hlv : p.live = some lv) (hrun : lv.running = true)
    (hr1 : p.recordedRecording = false) (hr2 : p.recordedTranscribing = false)
    (hown : p.streamRecordingBlockId ≠ some blockId) :
    (startRecordingForBlock env p blockId).1 = p
    ∧ (startRecordingForBlock env p blockId).2.1 = false
    ∧ ((startRecordingForBlock env p blockId).2.2
          = [Out.noticeOut "Another scribe block is recording."]
        ∨ (startRecordingForBlock env p blockId).2.2
          = [Out.noticeOut "Live transcription is already running."]) := by
  unfold startRecordingForBlock
  rw [hlv]
  dsimp only
  rw [hr1, hr2]
  cases hs : p.streamRecordingBlockId with
  | none =>
    simp [hrun]
  | some a =>
    have ha : a ≠ blockId := fun h => hown (by rw [hs, h])
    by_cases hae : a = ""
    · simp [hrun, hae]
    · simp [hrun, hae, ha]

/-- Plugin state for the C9 witness: block "A" owns a running live
session. -/
def wPlugin9 : PluginState :=
  { live := some wState8, recordedRecording := false, recordedTranscribing := false,
    streamRecordingBlockId := some "A" }

theorem busy_start_rejected_witness :
    (startRecordingForBlock wEnv6 wPlugin9 "B").1 = wPlugin9
    ∧ (startRecordingForBlock wEnv6 wPlugin9 "B").2.1 = false
    ∧ ((startRecordingForBlock wEnv6 wPlugin9 "B").2.2
          = [Out.noticeOut "Another scribe block is recording."]
        ∨ (startRecordingForBlock wEnv6 wPlugin9 "B").2.2
          = [Out.noticeOut "Live transcription is already running."]) :=
  busy_start_rejected wEnv6 wPlugin9 "B" wState8 (by decide) (by decide)
    (by decide) (by decide) (by decide)

/-- C10: `start()` past its guards sanitizes the configuration: the
sample rate handed to the streaming channel, and the sample rate and
chunk size handed to the microphone capture, are the configured values
when finite and positive, and the defaults 16000 / 800 otherwise. -/
theorem start_sanitizes_config (env : StartEnv) (s : LiveState)
    (h1 : s.running = false) (h2 : jsTrim env.apiKey ≠ "")
    (h3 : env.connectOk = true) (h4 : env.micOk = true) :
    ((start env s).1.aai.map (fun c => c.opts.sampleRate))
        = some (if env.config.sampleRate.isFinite && env.config.sampleRate.gtZero
                then env.config.sampleRate else JsNum.fin 16000)
    ∧ (start env s).1.mic
        = some { chunkSizeSamples :=
                   if env.config.chunkSizeSamples.isFinite && env.config.chunkSizeSamples.gtZero
                   then env.config.chunkSizeSamples else JsNum.fin 800,
                 sampleRate :=
                   if env.config.sampleRate.isFinite && env.config.sampleRate.gtZero
                   then env.config.sampleRate else JsNum.fin 16000 } := by
  simp [start, h1, h2, h3, h4]

/-- Environment for the C10 witness: an invalid (NaN) sample rate and an
invalid (negative) chunk size, both of which must be replaced by the
defaults. -/
def wEnv10 : StartEnv :=
  { apiKey := "k",
    config := { sampleRate := JsNum.nan, chunkSizeSamples := JsNum.fin (-5),
                encoding := Encoding.pcm_s16le, formatTurns := false,
                endOfTurnConfidenceThreshold := JsNum.fin 1,
                minEndOfTurnSilenceMs := JsNum.fin 160,
                maxTurnSilenceMs := JsNum.fin 2400 },
    keyterms := some ["tuon"], target := none,
    connectOk := true, connectErrMsg := "", micOk := true, micErrMsg := "" }

/-- Idle state for the C10 witness. -/
def wState10 : LiveState :=
  { finalized := "", current := "", pendingUnformatted := "", running := false,
    hasFinal := false, hasInterim := false, hasPreview := false, hasStatus := false,
    hasRunningCb := false, aai := none, mic := none, unsub := false }

theorem start_sanitizes_config_witness :
    ((start wEnv10 wState10).1.aai.map (fun c => c.opts.sampleRate))
        = some (if wEnv10.config.sampleRate.isFinite && wEnv10.config.sampleRate.gtZero
                then wEnv10.config.sampleRate else JsNum.fin 16000)
    ∧ (start wEnv10 wState10).1.mic
        = some { chunkSizeSamples :=
                   if wEnv10.config.chunkSizeSamples.isFinite && wEnv10.config.chunkSizeSamples.gtZero
                   then wEnv10.config.chunkSizeSamples else JsNum.fin 800,
                 sampleRate :=
                   if wEnv10.config.sampleRate.isFinite && wEnv10.config.sampleRate.gtZero
                   then wEnv10.config.sampleRate else JsNum.fin 16000 } :=
  start_sanitizes_config wEnv10 wState10 (by decide) (by decide) (by decide) (by decide)

end TuonScribe
